import Mathlib

/-!
Shallow embedding of `autobahn/compress_snappy.py`: the `permessage-snappy`
WebSocket extension negotiation objects (`PerMessageSnappyOffer`,
`PerMessageSnappyOfferAccept`, `PerMessageSnappyResponse`,
`PerMessageSnappyResponseAccept`) and the stateful extension processor
(`PerMessageSnappy`).

Modelling conventions:
* Python runtime values that may or may not be booleans are embedded as `PyVal`;
  Python's `x == True` semantics (where `1 == True`) is `PyVal.eqTrue`.
* Each `raise Exception(...)` site is mapped to a distinct `SnappyError`
  constructor, named after the message it carries; fallible constructors and
  parsers return `Except SnappyError _`.
* The parameter mapping produced by the (external) extensions-header parser is
  an association list `Params`, iterated in order (Python iterates a dict).
* The `snappy.StreamCompressor()` / `snappy.StreamDecompressor()` allocations
  are modelled by drawing a fresh identifier from an allocation counter carried
  in the session state, so distinct allocations yield distinct handles; the
  codec itself is an external collaborator and out of scope.
* Stateful methods of `PerMessageSnappy` are state transformers
  `PerMessageSnappy → … × PerMessageSnappy`.
-/

/-- Embedded Python runtime values, as far as the module can observe them. -/
inductive PyVal where
  | bool (b : Bool)
  | int (n : Int)
  | str (s : String)
  | none
deriving DecidableEq

/-- Python `type(v) == bool`. -/
def PyVal.isBool : PyVal → Bool
  | .bool _ => true
  | _ => false

/-- Python `v == True` (note that in Python `1 == True` holds). -/
def PyVal.eqTrue : PyVal → Bool
  | .bool b => b
  | .int n => n == 1
  | .str _ => false
  | .none => false

/-- The distinct `raise Exception(...)` sites of `compress_snappy.py`,
one constructor per message shape, carrying the offending parameter name
where the message interpolates one. -/
inductive SnappyError where
  | multipleOccurrence (p : String)
  | illegalValue (p : String)
  | illegalParameter (p : String)
  | indexError (p : String)
  | invalidOfferType
  | invalidAcceptType
  | invalidAcceptValue
  | invalidResponseType
deriving DecidableEq

/-- Discriminator for the duplicate-parameter error. -/
def SnappyError.isMultipleOccurrence : SnappyError → Bool
  | .multipleOccurrence _ => true
  | _ => false

/-- Output of the external extensions-header parser: a mapping from parameter
name to the ordered sequence of its decoded values, iterated in order. -/
abbrev Params := List (String × List PyVal)

/-- Does the mapping contain the given parameter name? -/
def Params.hasKey (ps : Params) (k : String) : Bool :=
  ps.any (fun kv => kv.1 == k)

/-- Source `PerMessageSnappyOffer`: extension parameters offered by a client.
The field defaults are the Python constructor's defaults
(`acceptNoContextTakeover = True`, `requestNoContextTakeover = False`). -/
structure PerMessageSnappyOffer where
  acceptNoContextTakeover : Bool := true
  requestNoContextTakeover : Bool := false
deriving DecidableEq

/-- The `for p in params` loop of `PerMessageSnappyOffer.parse`, carrying the
two flag variables initialised to their defaults by the caller. -/
def PerMessageSnappyOffer.parseLoop (acceptNoContextTakeover requestNoContextTakeover : Bool) :
    Params → Except SnappyError (Bool × Bool)
  | [] => .ok (acceptNoContextTakeover, requestNoContextTakeover)
  | (p, vals) :: rest =>
    if vals.length > 1 then
      .error (.multipleOccurrence p)
    else
      match vals with
      | [] => .error (.indexError p)
      | val :: _ =>
        if p = "c2s_no_context_takeover" then
          if val.eqTrue = false then .error (.illegalValue p)
          else PerMessageSnappyOffer.parseLoop true requestNoContextTakeover rest
        else if p = "s2c_no_context_takeover" then
          if val.eqTrue = false then .error (.illegalValue p)
          else PerMessageSnappyOffer.parseLoop acceptNoContextTakeover true rest
        else .error (.illegalParameter p)

/-- Source `PerMessageSnappyOffer.parse`: flag defaults `False`, the verification
loop, then construction of the offer from the two flags. -/
def PerMessageSnappyOffer.parse (params : Params) :
    Except SnappyError PerMessageSnappyOffer :=
  (PerMessageSnappyOffer.parseLoop false false params).map
    (fun ar => { acceptNoContextTakeover := ar.1, requestNoContextTakeover := ar.2 })

/-- Source `PerMessageSnappyOffer.getExtensionString`. -/
def PerMessageSnappyOffer.getExtensionString (o : PerMessageSnappyOffer) : String :=
  let pmceString := "permessage-snappy"
  let pmceString :=
    if o.acceptNoContextTakeover then pmceString ++ "; c2s_no_context_takeover" else pmceString
  let pmceString :=
    if o.requestNoContextTakeover then pmceString ++ "; s2c_no_context_takeover" else pmceString
  pmceString

/-- Source `PerMessageSnappyOfferAccept` after successful construction: the accepted
offer and the server's own request flag (a genuine boolean by then). -/
structure PerMessageSnappyOfferAccept where
  offer : PerMessageSnappyOffer
  requestNoContextTakeover : Bool
deriving DecidableEq

/-- Source `PerMessageSnappyOfferAccept.__init__`. The `isinstance(offer, …)` check
always passes in the typed embedding; then the `type(requestNoContextTakeover)
!= bool` check, then the semantic consent check against the offer. -/
def PerMessageSnappyOfferAccept.init (offer : PerMessageSnappyOffer)
    (requestNoContextTakeover : PyVal) :
    Except SnappyError PerMessageSnappyOfferAccept :=
  if requestNoContextTakeover.isBool = false then
    .error .invalidAcceptType
  else if requestNoContextTakeover.eqTrue && !offer.acceptNoContextTakeover then
    .error .invalidAcceptValue
  else
    .ok { offer := offer, requestNoContextTakeover := requestNoContextTakeover.eqTrue }

/-- Source `PerMessageSnappyOfferAccept.getExtensionString`. -/
def PerMessageSnappyOfferAccept.getExtensionString (a : PerMessageSnappyOfferAccept) : String :=
  let pmceString := "permessage-snappy"
  let pmceString :=
    if a.offer.requestNoContextTakeover then pmceString ++ "; s2c_no_context_takeover"
    else pmceString
  let pmceString :=
    if a.requestNoContextTakeover then pmceString ++ "; c2s_no_context_takeover" else pmceString
  pmceString

/-- Source `PerMessageSnappyResponse`: extension parameters responded by a server. -/
structure PerMessageSnappyResponse where
  c2s_no_context_takeover : Bool
  s2c_no_context_takeover : Bool
deriving DecidableEq

/-- The `for p in params` loop of `PerMessageSnappyResponse.parse` (textually
identical in the source to the offer's loop, with its own flag variables). -/
def PerMessageSnappyResponse.parseLoop (c2s_no_context_takeover s2c_no_context_takeover : Bool) :
    Params → Except SnappyError (Bool × Bool)
  | [] => .ok (c2s_no_context_takeover, s2c_no_context_takeover)
  | (p, vals) :: rest =>
    if vals.length > 1 then
      .error (.multipleOccurrence p)
    else
      match vals with
      | [] => .error (.indexError p)
      | val :: _ =>
        if p = "c2s_no_context_takeover" then
          if val.eqTrue = false then .error (.illegalValue p)
          else PerMessageSnappyResponse.parseLoop true s2c_no_context_takeover rest
        else if p = "s2c_no_context_takeover" then
          if val.eqTrue = false then .error (.illegalValue p)
          else PerMessageSnappyResponse.parseLoop c2s_no_context_takeover true rest
        else .error (.illegalParameter p)

/-- Source `PerMessageSnappyResponse.parse`. -/
def PerMessageSnappyResponse.parse (params : Params) :
    Except SnappyError PerMessageSnappyResponse :=
  (PerMessageSnappyResponse.parseLoop false false params).map
    (fun cs => { c2s_no_context_takeover := cs.1, s2c_no_context_takeover := cs.2 })

/-- Source `PerMessageSnappyResponseAccept` after successful construction. -/
structure PerMessageSnappyResponseAccept where
  response : PerMessageSnappyResponse
deriving DecidableEq

/-- Source `PerMessageSnappyResponseAccept.__init__`: only the `isinstance` type
check, which the typed embedding renders always-successful. -/
def PerMessageSnappyResponseAccept.init (response : PerMessageSnappyResponse) :
    Except SnappyError PerMessageSnappyResponseAccept :=
  .ok { response := response }

/-- Source `PerMessageSnappy` session state: role, the two lazily created context
handles, the two negotiated flags, plus the allocation counter `fresh` that
models distinct codec-object allocations. -/
structure PerMessageSnappy where
  isServer : Bool
  compressor : Option Nat
  decompressor : Option Nat
  s2c_no_context_takeover : Bool
  c2s_no_context_takeover : Bool
  fresh : Nat
deriving DecidableEq

/-- Source `PerMessageSnappy.__init__`: both context handles start out `None`. -/
def PerMessageSnappy.init (isSrv s2c c2s : Bool) : PerMessageSnappy :=
  { isServer := isSrv
    compressor := Option.none
    decompressor := Option.none
    s2c_no_context_takeover := s2c
    c2s_no_context_takeover := c2s
    fresh := 0 }

/-- Source `PerMessageSnappy.createFromResponseAccept`. -/
def PerMessageSnappy.createFromResponseAccept (isSrv : Bool)
    (accept : PerMessageSnappyResponseAccept) : PerMessageSnappy :=
  PerMessageSnappy.init isSrv
    accept.response.s2c_no_context_takeover
    accept.response.c2s_no_context_takeover

/-- Source `PerMessageSnappy.createFromOfferAccept`. -/
def PerMessageSnappy.createFromOfferAccept (isSrv : Bool)
    (accept : PerMessageSnappyOfferAccept) : PerMessageSnappy :=
  PerMessageSnappy.init isSrv
    accept.offer.requestNoContextTakeover
    accept.requestNoContextTakeover

/-- Source `PerMessageSnappy.startCompressMessage`: a server resets the compressor
when it is absent or `s2c_no_context_takeover` is set; a client when it is
absent or `c2s_no_context_takeover` is set. A reset allocates a fresh
`snappy.StreamCompressor()` handle. -/
def PerMessageSnappy.startCompressMessage (s : PerMessageSnappy) : PerMessageSnappy :=
  if s.isServer then
    if s.compressor.isNone || s.s2c_no_context_takeover then
      { s with compressor := some s.fresh, fresh := s.fresh + 1 }
    else s
  else
    if s.compressor.isNone || s.c2s_no_context_takeover then
      { s with compressor := some s.fresh, fresh := s.fresh + 1 }
    else s

/-- Modelled from the spec: the external snappy codec is out of scope
("the actual byte-level compression/decompression algorithm" is an external
collaborator), so chunk transformation is left abstract as the identity;
only definedness of the calls matters to the claims. -/
def snappy_add_chunk (data : List Nat) : List Nat := data

/-- Modelled from the spec: external codec, see `snappy_add_chunk`. -/
def snappy_decompress (data : List Nat) : List Nat := data

/-- Source `PerMessageSnappy.compressMessageData`: feeds a chunk to the current
compressor; with no compressor present the attribute access on `None` fails,
modelled as `Option.none`. The session fields are untouched. -/
def PerMessageSnappy.compressMessageData (s : PerMessageSnappy) (data : List Nat) :
    Option (List Nat) × PerMessageSnappy :=
  match s.compressor with
  | Option.none => (Option.none, s)
  | some _ => (some (snappy_add_chunk data), s)

/-- Source `PerMessageSnappy.endCompressMessage`: returns the empty string, touching
nothing. -/
def PerMessageSnappy.endCompressMessage (s : PerMessageSnappy) : String × PerMessageSnappy :=
  ("", s)

/-- Source `PerMessageSnappy.startDecompressMessage`: mirror image of
`startCompressMessage` — a server resets the decompressor when it is absent or
`c2s_no_context_takeover` is set; a client when it is absent or
`s2c_no_context_takeover` is set. -/
def PerMessageSnappy.startDecompressMessage (s : PerMessageSnappy) : PerMessageSnappy :=
  if s.isServer then
    if s.decompressor.isNone || s.c2s_no_context_takeover then
      { s with decompressor := some s.fresh, fresh := s.fresh + 1 }
    else s
  else
    if s.decompressor.isNone || s.s2c_no_context_takeover then
      { s with decompressor := some s.fresh, fresh := s.fresh + 1 }
    else s

/-- Source `PerMessageSnappy.decompressMessageData`, analogous to
`compressMessageData`. -/
def PerMessageSnappy.decompressMessageData (s : PerMessageSnappy) (data : List Nat) :
    Option (List Nat) × PerMessageSnappy :=
  match s.decompressor with
  | Option.none => (Option.none, s)
  | some _ => (some (snappy_decompress data), s)

/-- Source `PerMessageSnappy.endDecompressMessage`: a no-op. -/
def PerMessageSnappy.endDecompressMessage (s : PerMessageSnappy) : PerMessageSnappy :=
  s

deriving instance DecidableEq for Except

/-- Splits a character list on the two-character separator "; ". -/
def splitSemiSpace : List Char → List (List Char)
  | [] => [[]]
  | ';' :: ' ' :: rest => [] :: splitSemiSpace rest
  | c :: rest =>
    match splitSemiSpace rest with
    | [] => [[c]]
    | g :: gs => (c :: g) :: gs

/-- Modelled from the spec: the external extensions-header parser
(`_parseExtensionsHeader`, repository code outside this module) applied to a
PMCE configuration string — the extension token followed by bare parameter
names separated by "; ", each bare parameter decoded as the single value
`True`. -/
def parseExtensionsHeader (s : String) : Params :=
  match splitSemiSpace s.data with
  | [] => []
  | _ :: ps => ps.map (fun g => (String.mk g, [PyVal.bool true]))

/-- An entry of a parameter mapping that the parse loops accept and move past:
a recognized parameter name carrying the single value `True`. -/
def cleanEntry (kv : String × List PyVal) : Bool :=
  (kv.1 == "c2s_no_context_takeover" || kv.1 == "s2c_no_context_takeover")
    && kv.2 == [PyVal.bool true]

example : PerMessageSnappyOffer.parse
    [("c2s_no_context_takeover", [PyVal.bool true]), ("s2c_no_context_takeover", [PyVal.bool true])]
    = .ok { acceptNoContextTakeover := true, requestNoContextTakeover := true } := rfl

example : PerMessageSnappyOffer.getExtensionString {} = "permessage-snappy; c2s_no_context_takeover" := by decide

example : parseExtensionsHeader "permessage-snappy; c2s_no_context_takeover"
    = [("c2s_no_context_takeover", [PyVal.bool true])] := rfl

example : (PerMessageSnappyOffer.parse (parseExtensionsHeader
    (PerMessageSnappyOffer.getExtensionString { acceptNoContextTakeover := true, requestNoContextTakeover := true }))).map
    PerMessageSnappyOffer.getExtensionString
    = .ok (PerMessageSnappyOffer.getExtensionString { acceptNoContextTakeover := true, requestNoContextTakeover := true }) := rfl

/-! ## Theorems -/

/-- C1: Constructing an `OfferAccept` with `requestNoContextTakeover = true`
fails with the invalid-accept-parameter error exactly when the referenced
offer's `acceptNoContextTakeover` is `false`; for every parsed offer and every
boolean `requestNoContextTakeover`, construction succeeds otherwise, yielding
the accept object with those fields. -/
theorem c1_offerAccept_consent (offer : PerMessageSnappyOffer) (r : Bool) :
    (PerMessageSnappyOfferAccept.init offer (PyVal.bool r) = .error .invalidAcceptValue
      ↔ r = true ∧ offer.acceptNoContextTakeover = false)
    ∧ (PerMessageSnappyOfferAccept.init offer (PyVal.bool r)
        = .ok { offer := offer, requestNoContextTakeover := r }
      ↔ (r = true → offer.acceptNoContextTakeover = true)) := by
  obtain ⟨a, q⟩ := offer
  cases a <;> cases q <;> cases r <;> exact ⟨by decide, by decide⟩

/-- C2: for each of the four flag combinations, serializing the offer, parsing
the wire string back into a parameter mapping (external header parser,
modelled from the spec) and parsing and re-serializing the offer reproduces
the original extension string. -/
theorem c2_offer_roundtrip (a r : Bool) :
    (PerMessageSnappyOffer.parse (parseExtensionsHeader
        (PerMessageSnappyOffer.getExtensionString
          { acceptNoContextTakeover := a, requestNoContextTakeover := r }))).map
      PerMessageSnappyOffer.getExtensionString
    = .ok (PerMessageSnappyOffer.getExtensionString
        { acceptNoContextTakeover := a, requestNoContextTakeover := r }) := by
  cases a <;> cases r <;> rfl

/-- C7: `endCompressMessage` returns the empty string and preserves every
session field, and `endDecompressMessage` preserves the whole session state:
neither context is reset at message end. -/
theorem c7_end_message_frame (s : PerMessageSnappy) :
    s.endCompressMessage.1 = ""
    ∧ s.endCompressMessage.2.compressor = s.compressor
    ∧ s.endCompressMessage.2.decompressor = s.decompressor
    ∧ s.endCompressMessage.2.isServer = s.isServer
    ∧ s.endCompressMessage.2.s2c_no_context_takeover = s.s2c_no_context_takeover
    ∧ s.endCompressMessage.2.c2s_no_context_takeover = s.c2s_no_context_takeover
    ∧ s.endDecompressMessage = s :=
  ⟨rfl, rfl, rfl, rfl, rfl, rfl, rfl⟩

/-- C9: a default-constructed offer has `acceptNoContextTakeover = true` and
`requestNoContextTakeover = false`, so it serializes to
"permessage-snappy; c2s_no_context_takeover", not the bare extension token. -/
theorem c9_default_offer :
    ({} : PerMessageSnappyOffer).acceptNoContextTakeover = true
    ∧ ({} : PerMessageSnappyOffer).requestNoContextTakeover = false
    ∧ PerMessageSnappyOffer.getExtensionString {} = "permessage-snappy; c2s_no_context_takeover"
    ∧ PerMessageSnappyOffer.getExtensionString {} ≠ "permessage-snappy" := by
  refine ⟨rfl, rfl, rfl, ?_⟩
  decide

/-- C10: immediately after `startCompressMessage` the compressor handle is
present and immediately after `startDecompressMessage` the decompressor handle
is present, for either role; hence the missing-context outcome of
`compressMessageData` / `decompressMessageData` is unreachable right after the
matching start call. -/
theorem c10_start_gives_context (s : PerMessageSnappy) (data : List Nat) :
    s.startCompressMessage.compressor.isSome = true
    ∧ s.startDecompressMessage.decompressor.isSome = true
    ∧ (s.startCompressMessage.compressMessageData data).1.isSome = true
    ∧ (s.startDecompressMessage.decompressMessageData data).1.isSome = true := by
  obtain ⟨isSrv, comp, decomp, s2c, c2s, f⟩ := s
  refine ⟨?_, ?_, ?_, ?_⟩ <;>
    cases isSrv <;> cases comp <;> cases decomp <;> cases s2c <;> cases c2s <;>
      simp [PerMessageSnappy.startCompressMessage, PerMessageSnappy.startDecompressMessage,
        PerMessageSnappy.compressMessageData, PerMessageSnappy.decompressMessageData]

/-- C5: `startCompressMessage` allocates a fresh compressor exactly when the
compressor is absent or the role-matching no-context-takeover flag is set
(`s2c_no_context_takeover` for a server, `c2s_no_context_takeover` for a
client); consequently two consecutive calls yield distinct compressor
instances when that flag is set, and keep the same instance when it is
clear. -/
theorem c5_start_compress_reset (s : PerMessageSnappy) :
    (s.startCompressMessage.fresh ≠ s.fresh ↔
      (s.compressor = Option.none ∨
        (if s.isServer then s.s2c_no_context_takeover else s.c2s_no_context_takeover) = true))
    ∧ (s.isServer = true → s.s2c_no_context_takeover = true →
        s.startCompressMessage.startCompressMessage.compressor
          ≠ s.startCompressMessage.compressor)
    ∧ (s.isServer = true → s.s2c_no_context_takeover = false →
        s.startCompressMessage.startCompressMessage.compressor
          = s.startCompressMessage.compressor)
    ∧ (s.isServer = false → s.c2s_no_context_takeover = true →
        s.startCompressMessage.startCompressMessage.compressor
          ≠ s.startCompressMessage.compressor)
    ∧ (s.isServer = false → s.c2s_no_context_takeover = false →
        s.startCompressMessage.startCompressMessage.compressor
          = s.startCompressMessage.compressor) := by
  obtain ⟨isSrv, comp, decomp, s2c, c2s, f⟩ := s
  refine ⟨?_, ?_, ?_, ?_, ?_⟩ <;>
    cases isSrv <;> cases comp <;> cases s2c <;> cases c2s <;>
      simp [PerMessageSnappy.startCompressMessage]

/-- C5 witness: a concrete server session with `s2c_no_context_takeover`
set gets two distinct compressor instances from two consecutive
`startCompressMessage` calls. -/
theorem c5_witness :
    (PerMessageSnappy.init true true false).startCompressMessage.startCompressMessage.compressor
      ≠ (PerMessageSnappy.init true true false).startCompressMessage.compressor :=
  (c5_start_compress_reset (PerMessageSnappy.init true true false)).2.1 rfl rfl

/-- C6: the two session factory paths agree — a session built by
`createFromOfferAccept` coincides, field by field, with the session built by
`createFromResponseAccept` whenever the offer-accept's
`offer.requestNoContextTakeover` matches the response's
`s2c_no_context_takeover` and its own `requestNoContextTakeover` matches the
response's `c2s_no_context_takeover`, for either role. -/
theorem c6_factory_paths_agree (isSrv : Bool)
    (oa : PerMessageSnappyOfferAccept) (ra : PerMessageSnappyResponseAccept)
    (h1 : oa.offer.requestNoContextTakeover = ra.response.s2c_no_context_takeover)
    (h2 : oa.requestNoContextTakeover = ra.response.c2s_no_context_takeover) :
    PerMessageSnappy.createFromOfferAccept isSrv oa
      = PerMessageSnappy.createFromResponseAccept isSrv ra
    ∧ (PerMessageSnappy.createFromOfferAccept isSrv oa).isServer = isSrv
    ∧ (PerMessageSnappy.createFromOfferAccept isSrv oa).s2c_no_context_takeover
        = oa.offer.requestNoContextTakeover
    ∧ (PerMessageSnappy.createFromOfferAccept isSrv oa).c2s_no_context_takeover
        = oa.requestNoContextTakeover := by
  refine ⟨?_, rfl, rfl, rfl⟩
  unfold PerMessageSnappy.createFromOfferAccept PerMessageSnappy.createFromResponseAccept
  rw [h1, h2]

/-- C6 witness: the two factory paths produce the same session for a concrete
matching offer-accept / response-accept pair. -/
theorem c6_witness :
    PerMessageSnappy.createFromOfferAccept true
        { offer := { acceptNoContextTakeover := true, requestNoContextTakeover := true },
          requestNoContextTakeover := true }
      = PerMessageSnappy.createFromResponseAccept true
        { response := { c2s_no_context_takeover := true, s2c_no_context_takeover := true } } :=
  (c6_factory_paths_agree true
    { offer := { acceptNoContextTakeover := true, requestNoContextTakeover := true },
      requestNoContextTakeover := true }
    { response := { c2s_no_context_takeover := true, s2c_no_context_takeover := true } }
    rfl rfl).1

/-- Helper: a successful run of the offer parse loop sets each accumulator
flag exactly when it was already set or the matching parameter name occurs in
the remaining mapping. -/
theorem offerParseLoop_ok_hasKey : ∀ (ps : Params) (a r a' r' : Bool),
    PerMessageSnappyOffer.parseLoop a r ps = .ok (a', r') →
    a' = (a || ps.hasKey "c2s_no_context_takeover")
    ∧ r' = (r || ps.hasKey "s2c_no_context_takeover") := by
  intro ps
  induction ps with
  | nil =>
    intro a r a' r' h
    simp only [PerMessageSnappyOffer.parseLoop, Except.ok.injEq, Prod.mk.injEq] at h
    simp [Params.hasKey, h.1, h.2]
  | cons kv rest ih =>
    obtain ⟨p, vals⟩ := kv
    intro a r a' r' h
    simp only [PerMessageSnappyOffer.parseLoop] at h
    by_cases hl : vals.length > 1
    · rw [if_pos hl] at h
      exact absurd h (by simp)
    · rw [if_neg hl] at h
      cases vals with
      | nil => exact absurd h (by simp)
      | cons val vtail =>
        dsimp only at h
        by_cases hp : p = "c2s_no_context_takeover"
        · rw [if_pos hp] at h
          by_cases hv : val.eqTrue = false
          · rw [if_pos hv] at h
            exact absurd h (by simp)
          · rw [if_neg hv] at h
            obtain ⟨ha, hr⟩ := ih true r a' r' h
            subst hp
            constructor
            · rw [ha]; simp [Params.hasKey]
            · rw [hr]; simp [Params.hasKey]
        · rw [if_neg hp] at h
          by_cases hq : p = "s2c_no_context_takeover"
          · rw [if_pos hq] at h
            by_cases hv : val.eqTrue = false
            · rw [if_pos hv] at h
              exact absurd h (by simp)
            · rw [if_neg hv] at h
              obtain ⟨ha, hr⟩ := ih a true a' r' h
              subst hq
              constructor
              · rw [ha]; simp [Params.hasKey, hp]
              · rw [hr]; simp [Params.hasKey]
          · rw [if_neg hq] at h
            exact absurd h (by simp)

/-- C3: on success, `Offer.parse` binds `acceptNoContextTakeover` to the
presence of the `c2s_no_context_takeover` parameter and
`requestNoContextTakeover` to the presence of the `s2c_no_context_takeover`
parameter (absent means `false`); in particular the mapping with both
parameters present and `True` parses to the both-flags offer, which
serializes to the canonical two-parameter string. -/
theorem c3_parse_binds :
    (∀ (ps : Params) (o : PerMessageSnappyOffer),
      PerMessageSnappyOffer.parse ps = .ok o →
      o.acceptNoContextTakeover = ps.hasKey "c2s_no_context_takeover"
      ∧ o.requestNoContextTakeover = ps.hasKey "s2c_no_context_takeover")
    ∧ PerMessageSnappyOffer.parse
        [("c2s_no_context_takeover", [PyVal.bool true]),
         ("s2c_no_context_takeover", [PyVal.bool true])]
      = .ok { acceptNoContextTakeover := true, requestNoContextTakeover := true }
    ∧ PerMessageSnappyOffer.getExtensionString
        { acceptNoContextTakeover := true, requestNoContextTakeover := true }
      = "permessage-snappy; c2s_no_context_takeover; s2c_no_context_takeover" := by
  refine ⟨?_, rfl, rfl⟩
  intro ps o h
  unfold PerMessageSnappyOffer.parse at h
  cases hp : PerMessageSnappyOffer.parseLoop false false ps with
  | error e =>
    rw [hp] at h
    exact absurd h (by simp [Except.map])
  | ok ar =>
    obtain ⟨a', r'⟩ := ar
    rw [hp] at h
    simp only [Except.map, Except.ok.injEq] at h
    obtain ⟨ha, hr⟩ := offerParseLoop_ok_hasKey ps false false a' r' hp
    rw [← h]
    simp [ha, hr]

/-- C3 witness: the invariant applied to a concrete one-parameter mapping. -/
theorem c3_witness :
    ({ acceptNoContextTakeover := true, requestNoContextTakeover := false }
        : PerMessageSnappyOffer).acceptNoContextTakeover
      = Params.hasKey [("c2s_no_context_takeover", [PyVal.bool true])] "c2s_no_context_takeover"
    ∧ ({ acceptNoContextTakeover := true, requestNoContextTakeover := false }
        : PerMessageSnappyOffer).requestNoContextTakeover
      = Params.hasKey [("c2s_no_context_takeover", [PyVal.bool true])] "s2c_no_context_takeover" :=
  c3_parse_binds.1 [("c2s_no_context_takeover", [PyVal.bool true])]
    { acceptNoContextTakeover := true, requestNoContextTakeover := false } rfl

/-- Helper: the `OfferAccept` constructor rejects every non-boolean
`requestNoContextTakeover` with the invalid-type error before any semantic
check. -/
theorem offerAccept_init_nonbool (offer : PerMessageSnappyOffer) (v : PyVal)
    (h : v.isBool = false) :
    PerMessageSnappyOfferAccept.init offer v = .error .invalidAcceptType := by
  unfold PerMessageSnappyOfferAccept.init
  rw [if_pos h]

/-- C8 counterexample: the constructor does validate the type of
`requestNoContextTakeover`. At the concrete non-boolean input `1` (with a
valid offer) construction raises the type error, and no offer/non-boolean
pair ever gets past the type check to the semantic check. -/
theorem c8_counterexample :
    PerMessageSnappyOfferAccept.init
        { acceptNoContextTakeover := true, requestNoContextTakeover := false } (PyVal.int 1)
      = .error .invalidAcceptType
    ∧ ¬ ∃ (offer : PerMessageSnappyOffer) (v : PyVal),
        v.isBool = false
        ∧ PerMessageSnappyOfferAccept.init offer v ≠ .error .invalidAcceptType := by
  refine ⟨rfl, ?_⟩
  rintro ⟨offer, v, hb, hne⟩
  exact hne (offerAccept_init_nonbool offer v hb)

/-- C8 amended: for every offer and every non-boolean value of
`requestNoContextTakeover`, the `OfferAccept` constructor fails with the
invalid-type error before performing the semantic consent check. -/
theorem c8_amended_type_check (offer : PerMessageSnappyOffer) (v : PyVal)
    (h : v.isBool = false) :
    PerMessageSnappyOfferAccept.init offer v = .error .invalidAcceptType :=
  offerAccept_init_nonbool offer v h

/-- C8 witness: a concrete non-boolean value is rejected with the type
error. -/
theorem c8_witness :
    PerMessageSnappyOfferAccept.init
        { acceptNoContextTakeover := false, requestNoContextTakeover := false } (PyVal.str "yes")
      = .error .invalidAcceptType :=
  c8_amended_type_check
    { acceptNoContextTakeover := false, requestNoContextTakeover := false } (PyVal.str "yes") rfl

/-- Helper: the response parse loop is the same function as the offer parse
loop (the two source loops are textually identical). -/
theorem responseParseLoop_eq_offerParseLoop : ∀ (ps : Params) (a r : Bool),
    PerMessageSnappyResponse.parseLoop a r ps = PerMessageSnappyOffer.parseLoop a r ps := by
  intro ps
  induction ps with
  | nil => intro a r; rfl
  | cons kv rest ih =>
    obtain ⟨p, vals⟩ := kv
    intro a r
    simp only [PerMessageSnappyOffer.parseLoop, PerMessageSnappyResponse.parseLoop]
    by_cases hl : vals.length > 1
    · rw [if_pos hl, if_pos hl]
    · rw [if_neg hl, if_neg hl]
      cases vals with
      | nil => rfl
      | cons val vtail =>
        dsimp only
        by_cases hp : p = "c2s_no_context_takeover"
        · rw [if_pos hp, if_pos hp]
          by_cases hv : val.eqTrue = false
          · rw [if_pos hv, if_pos hv]
          · rw [if_neg hv, if_neg hv]
            exact ih true r
        · rw [if_neg hp, if_neg hp]
          by_cases hq : p = "s2c_no_context_takeover"
          · rw [if_pos hq, if_pos hq]
            by_cases hv : val.eqTrue = false
            · rw [if_pos hv, if_pos hv]
            · rw [if_neg hv, if_neg hv]
              exact ih a true
          · rw [if_neg hq, if_neg hq]

/-- Helper: whenever some entry of the mapping carries more than one value,
the offer parse loop fails with some error. -/
theorem offerParseLoop_dup_fails : ∀ (ps : Params) (a r : Bool),
    ps.any (fun kv => decide (kv.2.length > 1)) = true →
    ∃ e, PerMessageSnappyOffer.parseLoop a r ps = .error e := by
  intro ps
  induction ps with
  | nil => intro a r h; simp at h
  | cons kv rest ih =>
    obtain ⟨p, vals⟩ := kv
    intro a r h
    simp only [PerMessageSnappyOffer.parseLoop]
    by_cases hl : vals.length > 1
    · rw [if_pos hl]
      exact ⟨_, rfl⟩
    · rw [if_neg hl]
      have htail : rest.any (fun kv => decide (kv.2.length > 1)) = true := by
        simp only [List.any_cons, Bool.or_eq_true, decide_eq_true_eq] at h
        rcases h with h | h
        · exact absurd h hl
        · simpa using h
      cases vals with
      | nil => exact ⟨_, rfl⟩
      | cons val vtail =>
        dsimp only
        by_cases hp : p = "c2s_no_context_takeover"
        · rw [if_pos hp]
          by_cases hv : val.eqTrue = false
          · rw [if_pos hv]
            exact ⟨_, rfl⟩
          · rw [if_neg hv]
            exact ih true r htail
        · rw [if_neg hp]
          by_cases hq : p = "s2c_no_context_takeover"
          · rw [if_pos hq]
            by_cases hv : val.eqTrue = false
            · rw [if_pos hv]
              exact ⟨_, rfl⟩
            · rw [if_neg hv]
              exact ih a true htail
          · rw [if_neg hq]
            exact ⟨_, rfl⟩

/-- Helper: if every entry is either duplicated (more than one value) or
clean (recognized name with the single value `True`), and at least one entry
is duplicated, the offer parse loop fails with the duplicate-parameter error
for a duplicated key. -/
theorem offerParseLoop_dup_first : ∀ (ps : Params) (a r : Bool),
    (∀ kv ∈ ps, kv.2.length > 1 ∨ cleanEntry kv = true) →
    ps.any (fun kv => decide (kv.2.length > 1)) = true →
    ∃ q vs, (q, vs) ∈ ps ∧ vs.length > 1
      ∧ PerMessageSnappyOffer.parseLoop a r ps = .error (.multipleOccurrence q) := by
  intro ps
  induction ps with
  | nil => intro a r _ h; simp at h
  | cons kv rest ih =>
    obtain ⟨p, vals⟩ := kv
    intro a r hclean hdup
    simp only [PerMessageSnappyOffer.parseLoop]
    by_cases hl : vals.length > 1
    · rw [if_pos hl]
      exact ⟨p, vals, by simp, hl, rfl⟩
    · rw [if_neg hl]
      have hcl : cleanEntry (p, vals) = true := by
        rcases hclean (p, vals) (by simp) with h | h
        · exact absurd h hl
        · exact h
      have htail : rest.any (fun kv => decide (kv.2.length > 1)) = true := by
        simp only [List.any_cons, Bool.or_eq_true, decide_eq_true_eq] at hdup
        rcases hdup with h | h
        · exact absurd h hl
        · simpa using h
      have hcleanrest : ∀ kv ∈ rest, kv.2.length > 1 ∨ cleanEntry kv = true :=
        fun kv hm => hclean kv (by simp [hm])
      simp only [cleanEntry, Bool.and_eq_true, Bool.or_eq_true, beq_iff_eq] at hcl
      obtain ⟨hk, hv⟩ := hcl
      subst hv
      dsimp only
      rcases hk with hp | hp
      · rw [if_pos hp]
        rw [if_neg (by decide : ¬(PyVal.bool true).eqTrue = false)]
        obtain ⟨q, vs, hmem, hlen, heq⟩ := ih true r hcleanrest htail
        exact ⟨q, vs, by simp [hmem], hlen, heq⟩
      · have hp1 : ¬p = "c2s_no_context_takeover" := by
          rw [hp]; decide
        rw [if_neg hp1, if_pos hp]
        rw [if_neg (by decide : ¬(PyVal.bool true).eqTrue = false)]
        obtain ⟨q, vs, hmem, hlen, heq⟩ := ih a true hcleanrest htail
        exact ⟨q, vs, by simp [hmem], hlen, heq⟩

/-- C4 counterexample: a mapping whose second key is duplicated but whose
first key carries the illegal value `False` makes both parses fail with the
illegal-value error for the first key — not the duplicate-parameter error —
so "fails with the duplicate-parameter error regardless of what the values
are" is false as stated. -/
theorem c4_counterexample :
    ([("c2s_no_context_takeover", [PyVal.bool false]),
      ("s2c_no_context_takeover", [PyVal.bool true, PyVal.bool true])] : Params).any
        (fun kv => decide (kv.2.length > 1)) = true
    ∧ PerMessageSnappyOffer.parse
        [("c2s_no_context_takeover", [PyVal.bool false]),
         ("s2c_no_context_takeover", [PyVal.bool true, PyVal.bool true])]
      = .error (.illegalValue "c2s_no_context_takeover")
    ∧ PerMessageSnappyResponse.parse
        [("c2s_no_context_takeover", [PyVal.bool false]),
         ("s2c_no_context_takeover", [PyVal.bool true, PyVal.bool true])]
      = .error (.illegalValue "c2s_no_context_takeover")
    ∧ (SnappyError.illegalValue "c2s_no_context_takeover").isMultipleOccurrence = false :=
  ⟨rfl, rfl, rfl, rfl⟩

/-- C4 amended: whenever some key of the mapping carries more than one value,
both `Offer.parse` and `Response.parse` fail, and with the same error; the
error is the duplicate-parameter error for a duplicated key provided every
other parameter the loop may meet first is a recognized parameter with the
single value `True` (otherwise an earlier parameter can fail first with its
own error, as in the counterexample). -/
theorem c4_amended_dup_fails (ps : Params)
    (hdup : ps.any (fun kv => decide (kv.2.length > 1)) = true) :
    (∃ e, PerMessageSnappyOffer.parse ps = .error e
      ∧ PerMessageSnappyResponse.parse ps = .error e)
    ∧ ((∀ kv ∈ ps, kv.2.length > 1 ∨ cleanEntry kv = true) →
        ∃ q vs, (q, vs) ∈ ps ∧ vs.length > 1
          ∧ PerMessageSnappyOffer.parse ps = .error (.multipleOccurrence q)
          ∧ PerMessageSnappyResponse.parse ps = .error (.multipleOccurrence q)) := by
  constructor
  · obtain ⟨e, he⟩ := offerParseLoop_dup_fails ps false false hdup
    refine ⟨e, ?_, ?_⟩
    · unfold PerMessageSnappyOffer.parse
      rw [he]
      rfl
    · unfold PerMessageSnappyResponse.parse
      rw [responseParseLoop_eq_offerParseLoop, he]
      rfl
  · intro hclean
    obtain ⟨q, vs, hmem, hlen, heq⟩ := offerParseLoop_dup_first ps false false hclean hdup
    refine ⟨q, vs, hmem, hlen, ?_, ?_⟩
    · unfold PerMessageSnappyOffer.parse
      rw [heq]
      rfl
    · unfold PerMessageSnappyResponse.parse
      rw [responseParseLoop_eq_offerParseLoop, heq]
      rfl

/-- C4 witness: the amended statement applied to a concrete mapping whose
only key is duplicated. -/
theorem c4_witness :
    ∃ q vs,
      (q, vs) ∈ ([("s2c_no_context_takeover", [PyVal.bool true, PyVal.bool true])] : Params)
      ∧ vs.length > 1
      ∧ PerMessageSnappyOffer.parse
          [("s2c_no_context_takeover", [PyVal.bool true, PyVal.bool true])]
        = .error (.multipleOccurrence q)
      ∧ PerMessageSnappyResponse.parse
          [("s2c_no_context_takeover", [PyVal.bool true, PyVal.bool true])]
        = .error (.multipleOccurrence q) :=
  (c4_amended_dup_fails [("s2c_no_context_takeover", [PyVal.bool true, PyVal.bool true])]
    (by decide)).2 (by decide)
